import Mathlib

/-!
Verification development for the react-invenio-deposit draft lifecycle layer.

The JavaScript source is shallowly embedded: JS objects, arrays and strings
are modelled by the inductive `JsValue`; promise resolution or rejection is
modelled by `Except JsValue`; dispatched lifecycle events, backend calls and
navigation side effects are collected into an explicit trace list.

Two source areas are modelled:
  * the error aggregation in FormFeedback.js (renderErrorMessages,
    toErrorMessages, toLabelledErrorMessages, defaultLabels, ACTIONS, render);
  * the draft lifecycle actions in state/actions/deposit.js
    (saveDraftWithUrlUpdate, _saveDraft, save, reservePID, discardPID).
-/

/-- A JavaScript value as it appears in the error documents and API payloads
handled by the deposit form: `null` stands for both JS null and undefined,
strings are message leaves, `arr` is a JS array, `obj` is a JS object given
as its property list in insertion order (keys unique). -/
inductive JsValue where
  | null : JsValue
  | str : String → JsValue
  | arr : List JsValue → JsValue
  | obj : List (String × JsValue) → JsValue

/-- JS property read `v[k]`: defined only on objects, `none` means the JS
result is undefined. -/
def getField (v : JsValue) (k : String) : Option JsValue :=
  match v with
  | .obj kvs => (kvs.find? (fun p => decide (p.1 = k))).map (fun p => p.2)
  | _ => none

/-- JS property read defaulting to undefined (modelled as `JsValue.null`). -/
def getFieldD (v : JsValue) (k : String) : JsValue :=
  (getField v k).getD .null

/-- JS truthiness on the modelled values: null and undefined and the empty
string are falsy, every object and array (even empty) is truthy. -/
def jsTruthy : JsValue → Bool
  | .null => false
  | .str s => !(s = "")
  | .arr _ => true
  | .obj _ => true

/-- JS `a || b`. -/
def jsOr (a b : JsValue) : JsValue :=
  if jsTruthy a then a else b

/-- lodash `_.isEmpty`: null and undefined are empty, a string is empty iff
it has no characters, arrays and objects are empty iff they have no
entries. -/
def jsIsEmpty : JsValue → Bool
  | .null => true
  | .str s => s = ""
  | .arr l => l.isEmpty
  | .obj l => l.isEmpty

/-- lodash `_.isObject`: objects and arrays are objects, strings and
null are not. -/
def jsIsObject : JsValue → Bool
  | .obj _ => true
  | .arr _ => true
  | _ => false

/-- JS `Object.entries`: the property list of an object; index-keyed entries
of an array; for a string, one entry per character keyed by its index (the
JS behaviour for `Object.entries` on a boxed string). `Object.entries` is
only reached in the source behind truthiness or `_.isObject` guards, so the
`null` case is never exercised. -/
def jsEntries : JsValue → List (String × JsValue)
  | .obj kvs => kvs
  | .arr vs => vs.enum.map (fun p => (toString p.1, p.2))
  | .str s => s.toList.enum.map (fun p => (toString p.1, .str (String.mk [p.2])))
  | .null => []

mutual
/-- Modelled from the spec: `leafTraverse` (imported from `../utils`, whose
source is not part of this repository snapshot) recursively walks an error
value; a string is a single message leaf, mappings and sequences are
traversed child by child in their natural order, and anything else
contributes no messages.  `toErrorMessages` in FormFeedback.js collects the
visited leaves in traversal order, which is what this function returns. -/
def leafMessages : JsValue → List String
  | .null => []
  | .str s => [s]
  | .arr vs => leafMessagesArr vs
  | .obj kvs => leafMessagesObj kvs

/-- Leaf messages of the elements of a JS array, in index order. -/
def leafMessagesArr : List JsValue → List String
  | [] => []
  | v :: rest => leafMessages v ++ leafMessagesArr rest

/-- Leaf messages of the values of a JS object, in property order. -/
def leafMessagesObj : List (String × JsValue) → List String
  | [] => []
  | p :: rest => leafMessages p.2 ++ leafMessagesObj rest
end

/-- First-seen deduplication of a list of strings: the semantics of
`[...new Set(messages)]` in renderErrorMessages (a JS Set keeps insertion
order and ignores re-insertions, so the first occurrence of each string is
kept, in order). -/
def setDedup : List String → List String
  | [] => []
  | m :: rest => m :: (setDedup rest).filter (fun x => decide (x ≠ m))

/-- The result of renderErrorMessages: either a single message rendered as
inline text, or an unordered-list node holding one entry per message. -/
inductive Rendered where
  | inline : String → Rendered
  | list : List String → Rendered
deriving DecidableEq

/-- renderErrorMessages from FormFeedback.js: deduplicate via a Set; when
exactly one unique message remains return `messages[0]` inline (the `headD`
default models JS indexing out of range and is unreachable there, since one
unique message forces a nonempty input), otherwise return the list of
unique messages. -/
def renderErrorMessages (messages : List String) : Rendered :=
  let uniqueMessages := setDedup messages
  if uniqueMessages.length = 1 then .inline (messages.headD "")
  else .list uniqueMessages

/-- JS object property write `o[k] = v` viewed on the entry list: replace
the value at an existing key, otherwise append the new entry at the end
(JS objects keep first-insertion key order). -/
def upsert : List (String × JsValue) → String → JsValue → List (String × JsValue)
  | [], k, v => [(k, v)]
  | p :: rest, k, v => if p.1 = k then (k, v) :: rest else p :: upsert rest k v

/-- JS `Object.fromEntries`: later entries with an already-seen key
overwrite the earlier value, keys keep first-occurrence order. -/
def fromEntries (l : List (String × JsValue)) : List (String × JsValue) :=
  l.foldl (fun acc p => upsert acc p.1 p.2) []

/-- Step 0 helper of toLabelledErrorMessages: the entries of one section
value with the section name prepended to each child key. -/
def step0Section (sectionVal : JsValue) (sectionName : String) : List (String × JsValue) :=
  (jsEntries sectionVal).map (fun p => (sectionName ++ p.1, p.2))

/-- `step0_metadata` in toLabelledErrorMessages: `errors.metadata || {}`
flattened under the key prefix `metadata.`. -/
def step0_metadata (errors : JsValue) : List (String × JsValue) :=
  step0Section (jsOr (getFieldD errors "metadata") (.obj [])) "metadata."

/-- `step0_files` in toLabelledErrorMessages. -/
def step0_files (errors : JsValue) : List (String × JsValue) :=
  step0Section (jsOr (getFieldD errors "files") (.obj [])) "files."

/-- `step0_access` in toLabelledErrorMessages: `errors.access?.embargo || {}`
flattened under the key prefix `access.embargo.` (on the modelled values the
optional chain is plain double field access, reading a field of null or of a
non-object being undefined). -/
def step0_access (errors : JsValue) : List (String × JsValue) :=
  step0Section (jsOr (getFieldD (getFieldD errors "access") "embargo") (.obj [])) "access.embargo."

/-- `step0_pids` in toLabelledErrorMessages: `errors.pids || {}` is expanded
childwise under the prefix `pids.` when it is an object, and otherwise kept
whole under the single key `pids`. -/
def step0_pids (errors : JsValue) : List (String × JsValue) :=
  let pids := jsOr (getFieldD errors "pids") (.obj [])
  if jsIsObject pids then step0Section pids "pids."
  else [("pids", pids)]

/-- Step 0 of toLabelledErrorMessages: the four section flattenings
concatenated in source order and collapsed into one object. -/
def step0 (errors : JsValue) : List (String × JsValue) :=
  fromEntries (step0_metadata errors ++ step0_files errors ++ step0_access errors ++ step0_pids errors)

/-- Step 1 of toLabelledErrorMessages: each dotted key's error value turned
into its list of leaf messages (`toErrorMessages`). -/
def step1 (errors : JsValue) : List (String × List String) :=
  (step0 errors).map (fun p => (p.1, leafMessages p.2))

/-- `this.labels[key] || 'Unknown field'` in step 2 of
toLabelledErrorMessages: look the dotted key up in the label table and fall
back to the literal label when the key is absent (or its label is the empty,
falsy string). -/
def labelOf (labels : List (String × String)) (k : String) : String :=
  match labels.find? (fun p => decide (p.1 = k)) with
  | some p => if p.2 = "" then "Unknown field" else p.2
  | none => "Unknown field"

/-- The step 2 accumulator update `labelledErrorMessages[label] =
(labelledErrorMessages[label] || []).concat(msgs)`: concatenate onto the
entry of an existing label, otherwise append a new label entry at the end. -/
def upsertConcat : List (String × List String) → String → List String → List (String × List String)
  | [], lab, msgs => [(lab, msgs)]
  | p :: rest, lab, msgs =>
    if p.1 = lab then (p.1, p.2 ++ msgs) :: rest
    else p :: upsertConcat rest lab msgs

/-- Step 2 of toLabelledErrorMessages: group the per-key message lists by
display label, concatenating in key encounter order, labels listed in first
encounter order. -/
def groupByLabel (labels : List (String × String)) (st : List (String × List String)) :
    List (String × List String) :=
  st.foldl (fun acc p => upsertConcat acc (labelOf labels p.1) p.2) []

/-- toLabelledErrorMessages from FormFeedback.js, parameterised by the label
table (`this.labels` in the component). -/
def toLabelledErrorMessages (labels : List (String × String)) (errors : JsValue) :
    List (String × List String) :=
  groupByLabel labels (step1 errors)

/-- defaultLabels from FormFeedback.js, with `i18next.t` modelled as the
identity on the English source strings. -/
def defaultLabels : List (String × String) :=
  [ ("files.enabled", "Files"),
    ("metadata.resource_type", "Resource type"),
    ("metadata.title", "Title"),
    ("metadata.additional_titles", "Additional titles"),
    ("metadata.publication_date", "Publication date"),
    ("metadata.creators", "Creators"),
    ("metadata.contributors", "Contributors"),
    ("metadata.description", "Description"),
    ("metadata.additional_descriptions", "Additional descriptions"),
    ("metadata.rights", "Licenses"),
    ("metadata.languages", "Languages"),
    ("metadata.dates", "Dates"),
    ("metadata.version", "Version"),
    ("metadata.publisher", "Publisher"),
    ("metadata.related_identifiers", "Related works"),
    ("metadata.identifiers", "Alternate identifiers"),
    ("access.embargo.until", "Embargo until"),
    ("pids.doi", "DOI"),
    ("pids", "PIDS") ]

/-- The lifecycle action type constants imported from `../types` (the module
itself is not in this snapshot; each constant is a distinct opaque string in
the source, modelled as a distinct constructor). -/
inductive ActionType where
  | DRAFT_SAVE_STARTED
  | DRAFT_SAVE_SUCCEEDED
  | DRAFT_SAVE_FAILED
  | DRAFT_HAS_VALIDATION_ERRORS
  | DRAFT_FETCHED
  | DRAFT_PUBLISH_STARTED
  | DRAFT_PUBLISH_FAILED
  | DRAFT_SUBMIT_REVIEW_STARTED
  | DRAFT_SUBMIT_REVIEW_FAILED
  | DRAFT_PREVIEW_STARTED
  | DRAFT_PREVIEW_FAILED
  | DRAFT_DELETE_STARTED
  | DRAFT_DELETE_FAILED
  | RESERVE_PID_STARTED
  | RESERVE_PID_SUCCEEDED
  | RESERVE_PID_FAILED
  | DISCARD_PID_STARTED
  | DISCARD_PID_SUCCEEDED
  | DISCARD_PID_FAILED
  | SET_COMMUNITY
  | FILE_UPLOAD_SAVE_DRAFT_FAILED
  | FILE_IMPORT_FAILED
deriving DecidableEq

/-- The payload of a dispatched lifecycle action: the `data`, `errors` and
`pidType` fields that the deposit actions put into their payloads, absent
fields modelled as `none`. -/
structure Payload where
  data : Option JsValue
  errors : Option JsValue
  pidType : Option String

/-- The empty payload (actions dispatched with no payload at all). -/
def payloadEmpty : Payload := ⟨none, none, none⟩

/-- A payload of shape `{data}`. -/
def payloadData (d : JsValue) : Payload := ⟨some d, none, none⟩

/-- A payload of shape `{errors}`. -/
def payloadErrors (e : JsValue) : Payload := ⟨none, some e, none⟩

/-- A payload of shape `{data, errors}`. -/
def payloadDataErrors (d e : JsValue) : Payload := ⟨some d, some e, none⟩

/-- A payload of shape `{pidType}`. -/
def payloadPidType (p : String) : Payload := ⟨none, none, some p⟩

/-- A dispatched lifecycle action `{type, payload}`. -/
structure LifecycleAction where
  type : ActionType
  payload : Payload

/-- One call into the backend drafts service, with its arguments. -/
inductive BackendCall where
  | save (draft : JsValue)
  | deleteReview (links : JsValue)
  | createOrUpdateReview (links : JsValue) (communityId : String)
  | read (links : JsValue)
  | reservePID (links : JsValue) (pidType : String)
  | discardPID (links : JsValue) (pidType : String)

/-- One observable step of a lifecycle operation, in program order: a store
dispatch, a backend call, a `window.history.replaceState` of the browser
address, or a full page navigation. -/
inductive TraceItem where
  | dispatch (a : LifecycleAction)
  | call (c : BackendCall)
  | replaceUrl (url : JsValue)
  | navigate (url : String)

/-- The backend drafts service collaborator: each method either resolves
with a response value or rejects with an error value. Responses and errors
are plain JS values (`response.data`, `response.errors` and `error.errors`
are field reads on them). -/
structure DraftsService where
  save : JsValue → Except JsValue JsValue
  deleteReview : JsValue → Except JsValue Unit
  createOrUpdateReview : JsValue → String → Except JsValue Unit
  read : JsValue → Except JsValue JsValue
  reservePID : JsValue → String → Except JsValue JsValue
  discardPID : JsValue → String → Except JsValue JsValue

/-- A selected community reference (only its `uuid` is read by the
lifecycle actions). -/
structure CommunityRef where
  uuid : String

/-- The community selection slice of the deposit store state. -/
structure CommunityState where
  selected : Option CommunityRef
  recordHasInclusionRequest : Bool
  isReviewForSelectedCommunity : Bool

/-- The deposit store slice as read by `_saveDraft`
(`getState().deposit.community`). -/
structure DepositState where
  community : CommunityState

/-- `shouldDeleteReview` in `_saveDraft`:
`communityState.recordHasInclusionRequest && !communityState.selected`. -/
def shouldDeleteReview (cs : CommunityState) : Bool :=
  cs.recordHasInclusionRequest && cs.selected.isNone

/-- `shouldUpdateReview` in `_saveDraft`:
`communityState.selected && !communityState.isReviewForSelectedCommunity`. -/
def shouldUpdateReview (cs : CommunityState) : Bool :=
  cs.selected.isSome && !cs.isReviewForSelectedCommunity

/-- `communityState.selected.uuid`; the source only evaluates this when a
community is selected, so the default is unreachable there. -/
def selectedUuid (cs : CommunityState) : String :=
  (cs.selected.map (fun c => c.uuid)).getD ""

/-- saveDraftWithUrlUpdate from deposit.js: remember whether the draft
already had an id, call the backend save, and when the draft was created by
this call replace the browser address with the response's
`data.links.self_html`. The backend response is returned unchanged; a
rejection propagates to the caller untouched. -/
def saveDraftWithUrlUpdate (draft : JsValue) (svc : DraftsService) :
    List TraceItem × Except JsValue JsValue :=
  match svc.save draft with
  | .error e => ([.call (.save draft)], .error e)
  | .ok response =>
    if jsTruthy (getFieldD draft "id") then
      ([.call (.save draft)], .ok response)
    else
      ([.call (.save draft),
        .replaceUrl (getFieldD (getFieldD (getFieldD response "data") "links") "self_html")],
       .ok response)

/-- The community-review reconciliation tail of `_saveDraft` (the code after
the validation-errors check): when a review mutation is called for, perform
it, re-fetch the draft and dispatch DRAFT_FETCHED with the refreshed data,
returning the refreshed response; otherwise return the save response
untouched. The review mutation and the re-fetch have no try/catch in the
source, so their rejections propagate without any dispatch. -/
def reconcileReview (svc : DraftsService) (cs : CommunityState) (response : JsValue) :
    List TraceItem × Except JsValue JsValue :=
  if shouldUpdateReview cs || shouldDeleteReview cs then
    let links := getFieldD (getFieldD response "data") "links"
    let mutationStep : List TraceItem × Except JsValue Unit :=
      if shouldDeleteReview cs then
        ([.call (.deleteReview links)], svc.deleteReview links)
      else if shouldUpdateReview cs then
        ([.call (.createOrUpdateReview links (selectedUuid cs))],
         svc.createOrUpdateReview links (selectedUuid cs))
      else ([], .ok ())
    match mutationStep with
    | (mt, .error e) => (mt, .error e)
    | (mt, .ok _) =>
      match svc.read links with
      | .error e => (mt ++ [.call (.read links)], .error e)
      | .ok refreshed =>
        (mt ++ [.call (.read links),
                .dispatch ⟨.DRAFT_FETCHED, payloadData (getFieldD refreshed "data")⟩],
         .ok refreshed)
  else ([], .ok response)

/-- `_saveDraft` from deposit.js: save the draft (with URL update); on a
backend rejection dispatch the caller's FAILED action with the rejection's
`errors` and re-throw; on a response carrying non-empty `errors` dispatch
DRAFT_HAS_VALIDATION_ERRORS with the response's data and errors and throw
the response; otherwise run the community-review reconciliation and return
the (possibly refreshed) response. -/
def _saveDraft (draft : JsValue) (svc : DraftsService) (depositState : DepositState)
    (failType : ActionType) : List TraceItem × Except JsValue JsValue :=
  match saveDraftWithUrlUpdate draft svc with
  | (t1, .error e) =>
    (t1 ++ [.dispatch ⟨failType, payloadErrors (getFieldD e "errors")⟩], .error e)
  | (t1, .ok response) =>
    if !jsIsEmpty (getFieldD response "errors") then
      (t1 ++ [.dispatch ⟨.DRAFT_HAS_VALIDATION_ERRORS,
                         payloadDataErrors (getFieldD response "data") (getFieldD response "errors")⟩],
       .error response)
    else
      match reconcileReview svc depositState.community response with
      | (t2, r2) => (t1 ++ t2, r2)

/-- The `save` thunk from deposit.js: dispatch DRAFT_SAVE_STARTED, run
`_saveDraft` with fail type DRAFT_SAVE_FAILED, and on success dispatch
DRAFT_SAVE_SUCCEEDED with the response's data; a rejection of `_saveDraft`
propagates (there is no try/catch in `save`), skipping the success
dispatch. -/
def save (draft : JsValue) (svc : DraftsService) (depositState : DepositState) :
    List TraceItem × Except JsValue Unit :=
  match _saveDraft draft svc depositState .DRAFT_SAVE_FAILED with
  | (t, .error e) => (.dispatch ⟨.DRAFT_SAVE_STARTED, payloadEmpty⟩ :: t, .error e)
  | (t, .ok response) =>
    (.dispatch ⟨.DRAFT_SAVE_STARTED, payloadEmpty⟩ :: t
       ++ [.dispatch ⟨.DRAFT_SAVE_SUCCEEDED, payloadData (getFieldD response "data")⟩],
     .ok ())

/-- The `reservePID` thunk from deposit.js: dispatch RESERVE_PID_STARTED
with the pid type, save via the narrow saveDraftWithUrlUpdate routine, call
the backend reservePID on the saved draft's links, dispatch
RESERVE_PID_SUCCEEDED with the reservation response's data; any rejection in
the try block dispatches RESERVE_PID_FAILED with the error's `errors` and
re-throws. -/
def reservePID (draft : JsValue) (pidType : String) (svc : DraftsService) :
    List TraceItem × Except JsValue Unit :=
  let started : TraceItem := .dispatch ⟨.RESERVE_PID_STARTED, payloadPidType pidType⟩
  match saveDraftWithUrlUpdate draft svc with
  | (t1, .error e) =>
    (started :: t1 ++ [.dispatch ⟨.RESERVE_PID_FAILED, payloadErrors (getFieldD e "errors")⟩],
     .error e)
  | (t1, .ok response) =>
    let links := getFieldD (getFieldD response "data") "links"
    match svc.reservePID links pidType with
    | .error e =>
      (started :: t1 ++ [.call (.reservePID links pidType),
                         .dispatch ⟨.RESERVE_PID_FAILED, payloadErrors (getFieldD e "errors")⟩],
       .error e)
    | .ok pidResponse =>
      (started :: t1 ++ [.call (.reservePID links pidType),
                         .dispatch ⟨.RESERVE_PID_SUCCEEDED, payloadData (getFieldD pidResponse "data")⟩],
       .ok ())

/-- The `discardPID` thunk from deposit.js, identical in shape to
`reservePID` with the DISCARD_PID action family and the backend discardPID
call. -/
def discardPID (draft : JsValue) (pidType : String) (svc : DraftsService) :
    List TraceItem × Except JsValue Unit :=
  let started : TraceItem := .dispatch ⟨.DISCARD_PID_STARTED, payloadPidType pidType⟩
  match saveDraftWithUrlUpdate draft svc with
  | (t1, .error e) =>
    (started :: t1 ++ [.dispatch ⟨.DISCARD_PID_FAILED, payloadErrors (getFieldD e "errors")⟩],
     .error e)
  | (t1, .ok response) =>
    let links := getFieldD (getFieldD response "data") "links"
    match svc.discardPID links pidType with
    | .error e =>
      (started :: t1 ++ [.call (.discardPID links pidType),
                         .dispatch ⟨.DISCARD_PID_FAILED, payloadErrors (getFieldD e "errors")⟩],
       .error e)
    | .ok pidResponse =>
      (started :: t1 ++ [.call (.discardPID links pidType),
                         .dispatch ⟨.DISCARD_PID_SUCCEEDED, payloadData (getFieldD pidResponse "data")⟩],
       .ok ())

/-- The ACTIONS table from FormFeedback.js: for each terminal action state a
feedback kind and a user-facing message (`i18next.t` modelled as identity). -/
def ACTIONS : List (ActionType × String × String) :=
  [ (.DRAFT_SAVE_SUCCEEDED, "positive", "Record successfully saved."),
    (.DRAFT_HAS_VALIDATION_ERRORS, "warning", "Record saved with validation errors:"),
    (.DRAFT_SAVE_FAILED, "negative",
      "Oops, something went wrong! The draft was not saved. Please try again. If the problem persists, contact user support."),
    (.DRAFT_PUBLISH_FAILED, "negative",
      "Oops, something went wrong! The draft was not published. Please try again. If the problem persists, contact user support."),
    (.DRAFT_SUBMIT_REVIEW_FAILED, "negative",
      "Oops, something went wrong! The draft was not submitted for review. Please try again. If the problem persists, contact user support."),
    (.DRAFT_DELETE_FAILED, "negative",
      "Oops, something went wrong! The draft was not deleted. Please try again. If the problem persists, contact user support."),
    (.DRAFT_PREVIEW_FAILED, "negative",
      "Oops, something went wrong! The draft cannot be previewed. Please try again. If the problem persists, contact user support."),
    (.RESERVE_PID_FAILED, "negative",
      "Oops, something went wrong! The identifier was not reserved. Please try again. If the problem persists, contact user support."),
    (.DISCARD_PID_FAILED, "negative",
      "Oops, something went wrong! The identifier was not discarded. Please try again. If the problem persists, contact user support."),
    (.FILE_UPLOAD_SAVE_DRAFT_FAILED, "negative",
      "Oops, something went wrong! The draft could not be saved before uploading the file. Please try again. If the problem persists, contact user support."),
    (.FILE_IMPORT_FAILED, "negative",
      "Oops, something went wrong! Importing files from the previous draft version failed. Please try again. If the problem persists, contact user support.") ]

/-- What the Feedback Presenter's render produces: nothing (the component
returns null), or a message box with a feedback kind, a headline message and
the labelled error items, each rendered inline or as a list. -/
inductive RenderResult where
  | nothing : RenderResult
  | message : String → String → List (String × Rendered) → RenderResult

/-- The render method of DisconnectedFormFeedback: look the current action
state up in ACTIONS (`_get` with an undefined default); with no message
(state absent from the table, or an undefined or falsy message) render
nothing; otherwise render the message together with the labelled error
items built from `this.props.errors || {}`. -/
def render (labels : List (String × String)) (actionState : Option ActionType)
    (errors : JsValue) : RenderResult :=
  match actionState.bind (fun st => ACTIONS.find? (fun a => decide (a.1 = st))) with
  | none => .nothing
  | some entry =>
    if entry.2.2 = "" then .nothing
    else
      let labelledMessages := toLabelledErrorMessages labels (jsOr errors (.obj []))
      .message entry.2.1 entry.2.2
        (labelledMessages.map (fun lm => (lm.1, renderErrorMessages lm.2)))

/-- The number of trace items satisfying a predicate. -/
def countIf (t : List TraceItem) (p : TraceItem → Bool) : Nat :=
  (t.filter p).length

/-- Recognises a dispatch of the given action type. -/
def isDispatchOfType (ty : ActionType) (i : TraceItem) : Bool :=
  match i with
  | .dispatch a => decide (a.type = ty)
  | _ => false

/-- The number of dispatched actions of the given type in a trace. -/
def countType (t : List TraceItem) (ty : ActionType) : Nat :=
  countIf t (isDispatchOfType ty)

/-- Recognises a backend deleteReview call. -/
def isDeleteReviewCall : TraceItem → Bool
  | .call (.deleteReview _) => true
  | _ => false

/-- Recognises a backend createOrUpdateReview call. -/
def isCreateOrUpdateReviewCall : TraceItem → Bool
  | .call (.createOrUpdateReview _ _) => true
  | _ => false

/-- Recognises a backend read call. -/
def isReadCall : TraceItem → Bool
  | .call (.read _) => true
  | _ => false

/-- Recognises a browser address replacement. -/
def isReplaceUrl : TraceItem → Bool
  | .replaceUrl _ => true
  | _ => false

@[simp]
theorem countIf_nil (p : TraceItem → Bool) : countIf [] p = 0 := rfl

@[simp]
theorem countIf_cons (x : TraceItem) (t : List TraceItem) (p : TraceItem → Bool) :
    countIf (x :: t) p = (if p x = true then 1 else 0) + countIf t p := by
  simp only [countIf, List.filter_cons]
  split <;> simp [Nat.add_comm]

@[simp]
theorem countIf_append (s t : List TraceItem) (p : TraceItem → Bool) :
    countIf (s ++ t) p = countIf s p + countIf t p := by
  simp [countIf, List.filter_append]

theorem swu_error {draft : JsValue} {svc : DraftsService} {e : JsValue}
    (h : svc.save draft = .error e) :
    saveDraftWithUrlUpdate draft svc = ([.call (.save draft)], .error e) := by
  simp [saveDraftWithUrlUpdate, h]

theorem swu_ok_hasId {draft : JsValue} {svc : DraftsService} {resp : JsValue}
    (h : svc.save draft = .ok resp) (hid : jsTruthy (getFieldD draft "id") = true) :
    saveDraftWithUrlUpdate draft svc = ([.call (.save draft)], .ok resp) := by
  simp [saveDraftWithUrlUpdate, h, hid]

theorem swu_ok_noId {draft : JsValue} {svc : DraftsService} {resp : JsValue}
    (h : svc.save draft = .ok resp) (hid : jsTruthy (getFieldD draft "id") = false) :
    saveDraftWithUrlUpdate draft svc =
      ([.call (.save draft),
        .replaceUrl (getFieldD (getFieldD (getFieldD resp "data") "links") "self_html")],
       .ok resp) := by
  simp [saveDraftWithUrlUpdate, h, hid]

theorem countIf_swu_zero (draft : JsValue) (svc : DraftsService) (p : TraceItem → Bool)
    (h1 : ∀ d, p (.call (.save d)) = false) (h2 : ∀ u, p (.replaceUrl u) = false) :
    countIf (saveDraftWithUrlUpdate draft svc).1 p = 0 := by
  unfold saveDraftWithUrlUpdate
  cases hs : svc.save draft with
  | error e => simp [h1]
  | ok resp =>
    cases hid : jsTruthy (getFieldD draft "id") <;> simp [h1, h2]

theorem _saveDraft_err {draft : JsValue} {svc : DraftsService} {e : JsValue}
    (ds : DepositState) (failType : ActionType) (h : svc.save draft = .error e) :
    _saveDraft draft svc ds failType =
      ([.call (.save draft), .dispatch ⟨failType, payloadErrors (getFieldD e "errors")⟩],
       .error e) := by
  simp [_saveDraft, swu_error h]

theorem _saveDraft_validation {draft : JsValue} {svc : DraftsService} {t1 : List TraceItem}
    {resp : JsValue} (ds : DepositState) (failType : ActionType)
    (h : saveDraftWithUrlUpdate draft svc = (t1, .ok resp))
    (herr : jsIsEmpty (getFieldD resp "errors") = false) :
    _saveDraft draft svc ds failType =
      (t1 ++ [.dispatch ⟨.DRAFT_HAS_VALIDATION_ERRORS,
                         payloadDataErrors (getFieldD resp "data") (getFieldD resp "errors")⟩],
       .error resp) := by
  simp [_saveDraft, h, herr]

theorem _saveDraft_clean {draft : JsValue} {svc : DraftsService} {t1 : List TraceItem}
    {resp : JsValue} (ds : DepositState) (failType : ActionType)
    (h : saveDraftWithUrlUpdate draft svc = (t1, .ok resp))
    (herr : jsIsEmpty (getFieldD resp "errors") = true) :
    _saveDraft draft svc ds failType =
      (t1 ++ (reconcileReview svc ds.community resp).1,
       (reconcileReview svc ds.community resp).2) := by
  simp [_saveDraft, h, herr]

theorem reconcileReview_none {cs : CommunityState} (svc : DraftsService) (resp : JsValue)
    (hu : shouldUpdateReview cs = false) (hd : shouldDeleteReview cs = false) :
    reconcileReview svc cs resp = ([], .ok resp) := by
  simp [reconcileReview, hu, hd]

theorem reconcileReview_update {cs : CommunityState} {svc : DraftsService} {resp resp2 : JsValue}
    (hu : shouldUpdateReview cs = true) (hd : shouldDeleteReview cs = false)
    (hmut : svc.createOrUpdateReview (getFieldD (getFieldD resp "data") "links")
              (selectedUuid cs) = .ok ())
    (hread : svc.read (getFieldD (getFieldD resp "data") "links") = .ok resp2) :
    reconcileReview svc cs resp =
      ([.call (.createOrUpdateReview (getFieldD (getFieldD resp "data") "links") (selectedUuid cs)),
        .call (.read (getFieldD (getFieldD resp "data") "links")),
        .dispatch ⟨.DRAFT_FETCHED, payloadData (getFieldD resp2 "data")⟩],
       .ok resp2) := by
  simp [reconcileReview, hu, hd, hmut, hread]

theorem reconcileReview_delete {cs : CommunityState} {svc : DraftsService} {resp resp2 : JsValue}
    (hd : shouldDeleteReview cs = true)
    (hmut : svc.deleteReview (getFieldD (getFieldD resp "data") "links") = .ok ())
    (hread : svc.read (getFieldD (getFieldD resp "data") "links") = .ok resp2) :
    reconcileReview svc cs resp =
      ([.call (.deleteReview (getFieldD (getFieldD resp "data") "links")),
        .call (.read (getFieldD (getFieldD resp "data") "links")),
        .dispatch ⟨.DRAFT_FETCHED, payloadData (getFieldD resp2 "data")⟩],
       .ok resp2) := by
  simp [reconcileReview, hd, hmut, hread]

theorem shouldDelete_excludes_update (cs : CommunityState)
    (h : shouldDeleteReview cs = true) : shouldUpdateReview cs = false := by
  simp only [shouldDeleteReview, Bool.and_eq_true] at h
  cases hsel : cs.selected with
  | none => simp [shouldUpdateReview, hsel]
  | some c => rw [hsel] at h; simp at h

theorem reconcileReview_counts (svc : DraftsService) (cs : CommunityState) (resp : JsValue) :
    countIf (reconcileReview svc cs resp).1 isDeleteReviewCall +
      countIf (reconcileReview svc cs resp).1 isCreateOrUpdateReviewCall ≤ 1 ∧
    countIf (reconcileReview svc cs resp).1 isReadCall ≤ 1 := by
  unfold reconcileReview
  cases hd : shouldDeleteReview cs with
  | true =>
    cases hm : svc.deleteReview (getFieldD (getFieldD resp "data") "links") with
    | error e =>
      simp [hd, hm, isDeleteReviewCall, isCreateOrUpdateReviewCall, isReadCall]
    | ok u =>
      cases hr : svc.read (getFieldD (getFieldD resp "data") "links") with
      | error e =>
        simp [hd, hm, hr, isDeleteReviewCall, isCreateOrUpdateReviewCall, isReadCall]
      | ok r2 =>
        simp [hd, hm, hr, isDeleteReviewCall, isCreateOrUpdateReviewCall, isReadCall]
  | false =>
    cases hu : shouldUpdateReview cs with
    | false => simp [hd, hu]
    | true =>
      cases hm : svc.createOrUpdateReview (getFieldD (getFieldD resp "data") "links")
          (selectedUuid cs) with
      | error e =>
        simp [hd, hu, hm, isDeleteReviewCall, isCreateOrUpdateReviewCall, isReadCall]
      | ok u =>
        cases hr : svc.read (getFieldD (getFieldD resp "data") "links") with
        | error e =>
          simp [hd, hu, hm, hr, isDeleteReviewCall, isCreateOrUpdateReviewCall, isReadCall]
        | ok r2 =>
          simp [hd, hu, hm, hr, isDeleteReviewCall, isCreateOrUpdateReviewCall, isReadCall]

/-- Concrete fixture: a clean backend save response with data, id and
links. -/
def wResp : JsValue :=
  .obj [("data", .obj [("id", .str "abc"),
                       ("links", .obj [("self_html", .str "/records/abc")])])]

/-- Concrete fixture: a resolved save response carrying a non-empty
validation `errors` payload. -/
def wRespErr : JsValue :=
  .obj [("data", .obj [("id", .str "abc"),
                       ("links", .obj [("self_html", .str "/records/abc")])]),
        ("errors", .arr [.str "bad title"])]

/-- Concrete fixture: a backend rejection value carrying an `errors`
field. -/
def wErr : JsValue := .obj [("errors", .arr [.str "boom"])]

/-- Concrete fixture: a backend whose every call resolves, saves resolving
with `wResp`. -/
def wSvcOk : DraftsService :=
  ⟨fun _ => .ok wResp, fun _ => .ok (), fun _ _ => .ok (), fun _ => .ok wResp,
   fun _ _ => .ok wResp, fun _ _ => .ok wResp⟩

/-- Concrete fixture: a backend whose save resolves with the
validation-errors response `wRespErr`. -/
def wSvcVal : DraftsService :=
  ⟨fun _ => .ok wRespErr, fun _ => .ok (), fun _ _ => .ok (), fun _ => .ok wResp,
   fun _ _ => .ok wResp, fun _ _ => .ok wResp⟩

/-- Concrete fixture: a backend whose save rejects with `wErr`. -/
def wSvcRej : DraftsService :=
  ⟨fun _ => .error wErr, fun _ => .ok (), fun _ _ => .ok (), fun _ => .ok wResp,
   fun _ _ => .ok wResp, fun _ _ => .ok wResp⟩

/-- Concrete fixture: a fresh draft without id. -/
def wDraft : JsValue := .obj []

/-- Concrete fixture: store state with no community selected and no
inclusion request. -/
def wNoCommunity : DepositState := ⟨⟨none, false, false⟩⟩

/-- Concrete fixture: store state with community u1 selected and no review
for it yet. -/
def wSelCommunity : DepositState := ⟨⟨some ⟨"u1"⟩, false, false⟩⟩

/-- Concrete fixture: store state with an inclusion request and no
community selected. -/
def wInclReq : DepositState := ⟨⟨none, true, false⟩⟩

/-- C1: when the backend save resolves but the response carries a non-empty
`errors` payload, the save operation dispatches exactly one
DRAFT_HAS_VALIDATION_ERRORS action whose payload holds the response's data
and errors, dispatches no DRAFT_SAVE_SUCCEEDED, performs no deleteReview,
createOrUpdateReview or read backend call, and its promise rejects (with
the response), aborting downstream steps. -/
theorem C1_save_soft_validation (draft : JsValue) (svc : DraftsService) (ds : DepositState)
    (response : JsValue)
    (hsave : svc.save draft = .ok response)
    (herr : jsIsEmpty (getFieldD response "errors") = false) :
    countType (save draft svc ds).1 .DRAFT_HAS_VALIDATION_ERRORS = 1 ∧
    TraceItem.dispatch ⟨.DRAFT_HAS_VALIDATION_ERRORS,
        payloadDataErrors (getFieldD response "data") (getFieldD response "errors")⟩
      ∈ (save draft svc ds).1 ∧
    countType (save draft svc ds).1 .DRAFT_SAVE_SUCCEEDED = 0 ∧
    countIf (save draft svc ds).1 isDeleteReviewCall = 0 ∧
    countIf (save draft svc ds).1 isCreateOrUpdateReviewCall = 0 ∧
    countIf (save draft svc ds).1 isReadCall = 0 ∧
    (save draft svc ds).2 = .error response := by
  cases hid : jsTruthy (getFieldD draft "id") with
  | true =>
    have hswu := swu_ok_hasId hsave hid
    have hsd := _saveDraft_validation ds .DRAFT_SAVE_FAILED hswu herr
    simp [save, hsd, countType, isDispatchOfType, isDeleteReviewCall,
          isCreateOrUpdateReviewCall, isReadCall]
  | false =>
    have hswu := swu_ok_noId hsave hid
    have hsd := _saveDraft_validation ds .DRAFT_SAVE_FAILED hswu herr
    simp [save, hsd, countType, isDispatchOfType, isDeleteReviewCall,
          isCreateOrUpdateReviewCall, isReadCall]

/-- C1 witness: the soft-validation behaviour at a concrete draft, backend
and store state. -/
theorem C1_save_soft_validation_witness :
    wSvcVal.save wDraft = .ok wRespErr ∧
    jsIsEmpty (getFieldD wRespErr "errors") = false ∧
    countType (save wDraft wSvcVal wNoCommunity).1 .DRAFT_HAS_VALIDATION_ERRORS = 1 ∧
    (save wDraft wSvcVal wNoCommunity).2 = .error wRespErr :=
  ⟨rfl, rfl,
   (C1_save_soft_validation wDraft wSvcVal wNoCommunity wRespErr rfl rfl).1,
   (C1_save_soft_validation wDraft wSvcVal wNoCommunity wRespErr rfl rfl).2.2.2.2.2.2⟩

/-- C2: when the backend save rejects with an error carrying an `errors`
field, the save operation's whole trace is the START dispatch, the save
call and exactly one DRAFT_SAVE_FAILED dispatch with payload {errors:
error.errors}; no success, validation or fetched action is dispatched, and
the promise rejects with the same error. -/
theorem C2_save_hard_failure (draft : JsValue) (svc : DraftsService) (ds : DepositState)
    (e errs : JsValue)
    (hsave : svc.save draft = .error e)
    (hfield : getField e "errors" = some errs) :
    save draft svc ds =
      ([.dispatch ⟨.DRAFT_SAVE_STARTED, payloadEmpty⟩,
        .call (.save draft),
        .dispatch ⟨.DRAFT_SAVE_FAILED, payloadErrors errs⟩],
       .error e) ∧
    countType (save draft svc ds).1 .DRAFT_SAVE_FAILED = 1 ∧
    countType (save draft svc ds).1 .DRAFT_SAVE_SUCCEEDED = 0 ∧
    countType (save draft svc ds).1 .DRAFT_HAS_VALIDATION_ERRORS = 0 ∧
    countType (save draft svc ds).1 .DRAFT_FETCHED = 0 := by
  have hsd := _saveDraft_err ds .DRAFT_SAVE_FAILED hsave
  have hD : getFieldD e "errors" = errs := by simp [getFieldD, hfield]
  simp [save, hsd, hD, countType, isDispatchOfType]

/-- C2 witness: the hard-failure behaviour at a concrete rejecting
backend. -/
theorem C2_save_hard_failure_witness :
    wSvcRej.save wDraft = .error wErr ∧
    getField wErr "errors" = some (.arr [.str "boom"]) ∧
    save wDraft wSvcRej wNoCommunity =
      ([.dispatch ⟨.DRAFT_SAVE_STARTED, payloadEmpty⟩,
        .call (.save wDraft),
        .dispatch ⟨.DRAFT_SAVE_FAILED, payloadErrors (.arr [.str "boom"])⟩],
       .error wErr) :=
  ⟨rfl, rfl,
   (C2_save_hard_failure wDraft wSvcRej wNoCommunity wErr (.arr [.str "boom"]) rfl rfl).1⟩

/-- C3: after a persist whose save resolved cleanly (the shared `_saveDraft`
routine used by save, publish, submitReview and preview), review
reconciliation follows the decision table: a selected community whose
review is not yet for it yields exactly one createOrUpdateReview call with
the selected community's id; an inclusion request with no selected
community yields exactly one deleteReview call; otherwise no review
backend call happens. After either mutation exactly one read follows,
then one DRAFT_FETCHED dispatch carrying the refreshed data. -/
theorem C3_review_decision_table (draft : JsValue) (svc : DraftsService) (ds : DepositState)
    (failType : ActionType) (response : JsValue)
    (hsave : svc.save draft = .ok response)
    (hclean : jsIsEmpty (getFieldD response "errors") = true) :
    (∀ c resp2, ds.community.selected = some c →
       ds.community.isReviewForSelectedCommunity = false →
       svc.createOrUpdateReview (getFieldD (getFieldD response "data") "links") c.uuid = .ok () →
       svc.read (getFieldD (getFieldD response "data") "links") = .ok resp2 →
       (_saveDraft draft svc ds failType).1 =
         (saveDraftWithUrlUpdate draft svc).1 ++
           [.call (.createOrUpdateReview (getFieldD (getFieldD response "data") "links") c.uuid),
            .call (.read (getFieldD (getFieldD response "data") "links")),
            .dispatch ⟨.DRAFT_FETCHED, payloadData (getFieldD resp2 "data")⟩] ∧
       countIf (_saveDraft draft svc ds failType).1 isCreateOrUpdateReviewCall = 1 ∧
       countIf (_saveDraft draft svc ds failType).1 isDeleteReviewCall = 0 ∧
       countIf (_saveDraft draft svc ds failType).1 isReadCall = 1 ∧
       countType (_saveDraft draft svc ds failType).1 .DRAFT_FETCHED = 1) ∧
    (∀ resp2, ds.community.selected = none →
       ds.community.recordHasInclusionRequest = true →
       svc.deleteReview (getFieldD (getFieldD response "data") "links") = .ok () →
       svc.read (getFieldD (getFieldD response "data") "links") = .ok resp2 →
       (_saveDraft draft svc ds failType).1 =
         (saveDraftWithUrlUpdate draft svc).1 ++
           [.call (.deleteReview (getFieldD (getFieldD response "data") "links")),
            .call (.read (getFieldD (getFieldD response "data") "links")),
            .dispatch ⟨.DRAFT_FETCHED, payloadData (getFieldD resp2 "data")⟩] ∧
       countIf (_saveDraft draft svc ds failType).1 isDeleteReviewCall = 1 ∧
       countIf (_saveDraft draft svc ds failType).1 isCreateOrUpdateReviewCall = 0 ∧
       countIf (_saveDraft draft svc ds failType).1 isReadCall = 1 ∧
       countType (_saveDraft draft svc ds failType).1 .DRAFT_FETCHED = 1) ∧
    (shouldUpdateReview ds.community = false → shouldDeleteReview ds.community = false →
       (_saveDraft draft svc ds failType).1 = (saveDraftWithUrlUpdate draft svc).1 ∧
       countIf (_saveDraft draft svc ds failType).1 isCreateOrUpdateReviewCall = 0 ∧
       countIf (_saveDraft draft svc ds failType).1 isDeleteReviewCall = 0 ∧
       countIf (_saveDraft draft svc ds failType).1 isReadCall = 0 ∧
       countType (_saveDraft draft svc ds failType).1 .DRAFT_FETCHED = 0) := by
  refine ⟨?_, ?_, ?_⟩
  · intro c resp2 hsel hrev hmut hread
    have hu : shouldUpdateReview ds.community = true := by
      simp [shouldUpdateReview, hsel, hrev]
    have hd : shouldDeleteReview ds.community = false := by
      simp [shouldDeleteReview, hsel]
    have huuid : selectedUuid ds.community = c.uuid := by simp [selectedUuid, hsel]
    have hrec := reconcileReview_update hu hd (by rw [huuid]; exact hmut)
      (by exact hread)
    rw [huuid] at hrec
    cases hid : jsTruthy (getFieldD draft "id") with
    | true =>
      have hswu := swu_ok_hasId hsave hid
      have hsd := _saveDraft_clean ds failType hswu hclean
      simp [hsd, hrec, hswu, countType, isDispatchOfType, isDeleteReviewCall,
            isCreateOrUpdateReviewCall, isReadCall]
    | false =>
      have hswu := swu_ok_noId hsave hid
      have hsd := _saveDraft_clean ds failType hswu hclean
      simp [hsd, hrec, hswu, countType, isDispatchOfType, isDeleteReviewCall,
            isCreateOrUpdateReviewCall, isReadCall]
  · intro resp2 hsel hincl hmut hread
    have hd : shouldDeleteReview ds.community = true := by
      simp [shouldDeleteReview, hsel, hincl]
    have hrec := reconcileReview_delete hd hmut hread
    cases hid : jsTruthy (getFieldD draft "id") with
    | true =>
      have hswu := swu_ok_hasId hsave hid
      have hsd := _saveDraft_clean ds failType hswu hclean
      simp [hsd, hrec, hswu, countType, isDispatchOfType, isDeleteReviewCall,
            isCreateOrUpdateReviewCall, isReadCall]
    | false =>
      have hswu := swu_ok_noId hsave hid
      have hsd := _saveDraft_clean ds failType hswu hclean
      simp [hsd, hrec, hswu, countType, isDispatchOfType, isDeleteReviewCall,
            isCreateOrUpdateReviewCall, isReadCall]
  · intro hu hd
    have hrec := reconcileReview_none svc response hu hd
    cases hid : jsTruthy (getFieldD draft "id") with
    | true =>
      have hswu := swu_ok_hasId hsave hid
      have hsd := _saveDraft_clean ds failType hswu hclean
      simp [hsd, hrec, hswu, countType, isDispatchOfType, isDeleteReviewCall,
            isCreateOrUpdateReviewCall, isReadCall]
    | false =>
      have hswu := swu_ok_noId hsave hid
      have hsd := _saveDraft_clean ds failType hswu hclean
      simp [hsd, hrec, hswu, countType, isDispatchOfType, isDeleteReviewCall,
            isCreateOrUpdateReviewCall, isReadCall]

/-- C3 witness: the createOrUpdateReview arm at a concrete selected
community, and the deleteReview arm at a concrete inclusion request. -/
theorem C3_review_decision_table_witness :
    wSvcOk.save wDraft = .ok wResp ∧
    jsIsEmpty (getFieldD wResp "errors") = true ∧
    countIf (_saveDraft wDraft wSvcOk wSelCommunity .DRAFT_SAVE_FAILED).1
      isCreateOrUpdateReviewCall = 1 ∧
    countIf (_saveDraft wDraft wSvcOk wInclReq .DRAFT_SAVE_FAILED).1
      isDeleteReviewCall = 1 ∧
    countType (_saveDraft wDraft wSvcOk wNoCommunity .DRAFT_SAVE_FAILED).1 .DRAFT_FETCHED = 0 :=
  ⟨rfl, rfl,
   ((C3_review_decision_table wDraft wSvcOk wSelCommunity .DRAFT_SAVE_FAILED wResp rfl rfl).1
      ⟨"u1"⟩ wResp rfl rfl rfl rfl).2.1,
   ((C3_review_decision_table wDraft wSvcOk wInclReq .DRAFT_SAVE_FAILED wResp rfl rfl).2.1
      wResp rfl rfl rfl rfl).2.1,
   ((C3_review_decision_table wDraft wSvcOk wNoCommunity .DRAFT_SAVE_FAILED wResp rfl rfl).2.2
      rfl rfl).2.2.2.2⟩

/-- C10: the delete-review condition and the create-or-update-review
condition are mutually exclusive, so one persist issues at most one review
mutation and at most one re-fetch, whatever the backend outcomes. -/
theorem C10_review_mutual_exclusion (draft : JsValue) (svc : DraftsService) (ds : DepositState)
    (failType : ActionType) :
    (shouldDeleteReview ds.community = true → shouldUpdateReview ds.community = false) ∧
    countIf (_saveDraft draft svc ds failType).1 isDeleteReviewCall +
      countIf (_saveDraft draft svc ds failType).1 isCreateOrUpdateReviewCall ≤ 1 ∧
    countIf (_saveDraft draft svc ds failType).1 isReadCall ≤ 1 := by
  refine ⟨shouldDelete_excludes_update ds.community, ?_⟩
  cases hs : svc.save draft with
  | error e =>
    have hsd := _saveDraft_err ds failType hs
    simp [hsd, isDeleteReviewCall, isCreateOrUpdateReviewCall, isReadCall]
  | ok resp =>
    have hb := reconcileReview_counts svc ds.community resp
    cases herr : jsIsEmpty (getFieldD resp "errors") with
    | false =>
      cases hid : jsTruthy (getFieldD draft "id") with
      | true =>
        have hsd := _saveDraft_validation ds failType (swu_ok_hasId hs hid) herr
        simp [hsd, isDeleteReviewCall, isCreateOrUpdateReviewCall, isReadCall]
      | false =>
        have hsd := _saveDraft_validation ds failType (swu_ok_noId hs hid) herr
        simp [hsd, isDeleteReviewCall, isCreateOrUpdateReviewCall, isReadCall]
    | true =>
      obtain ⟨hb1, hb2⟩ := hb
      cases hid : jsTruthy (getFieldD draft "id") with
      | true =>
        have hsd := _saveDraft_clean ds failType (swu_ok_hasId hs hid) herr
        rw [hsd]
        simp only [countIf_append]
        have h0 : countIf [TraceItem.call (.save draft)] isDeleteReviewCall = 0 := by
          simp [isDeleteReviewCall]
        have h1 : countIf [TraceItem.call (.save draft)] isCreateOrUpdateReviewCall = 0 := by
          simp [isCreateOrUpdateReviewCall]
        have h2 : countIf [TraceItem.call (.save draft)] isReadCall = 0 := by
          simp [isReadCall]
        constructor
        · omega
        · omega
      | false =>
        have hsd := _saveDraft_clean ds failType (swu_ok_noId hs hid) herr
        rw [hsd]
        simp only [countIf_append]
        have h0 : countIf [TraceItem.call (.save draft),
            TraceItem.replaceUrl (getFieldD (getFieldD (getFieldD resp "data") "links") "self_html")]
            isDeleteReviewCall = 0 := by
          simp [isDeleteReviewCall]
        have h1 : countIf [TraceItem.call (.save draft),
            TraceItem.replaceUrl (getFieldD (getFieldD (getFieldD resp "data") "links") "self_html")]
            isCreateOrUpdateReviewCall = 0 := by
          simp [isCreateOrUpdateReviewCall]
        have h2 : countIf [TraceItem.call (.save draft),
            TraceItem.replaceUrl (getFieldD (getFieldD (getFieldD resp "data") "links") "self_html")]
            isReadCall = 0 := by
          simp [isReadCall]
        constructor
        · omega
        · omega

/-- C10 witness: at a concrete persist with a selected community, the
exclusivity and the count bounds hold. -/
theorem C10_review_mutual_exclusion_witness :
    countIf (_saveDraft wDraft wSvcOk wSelCommunity .DRAFT_SAVE_FAILED).1 isDeleteReviewCall +
      countIf (_saveDraft wDraft wSvcOk wSelCommunity .DRAFT_SAVE_FAILED).1
        isCreateOrUpdateReviewCall ≤ 1 ∧
    countIf (_saveDraft wDraft wSvcOk wSelCommunity .DRAFT_SAVE_FAILED).1 isReadCall ≤ 1 :=
  (C10_review_mutual_exclusion wDraft wSvcOk wSelCommunity .DRAFT_SAVE_FAILED).2

theorem reservePID_err {draft : JsValue} {svc : DraftsService} {e : JsValue} (pidType : String)
    (h : svc.save draft = .error e) :
    reservePID draft pidType svc =
      ([.dispatch ⟨.RESERVE_PID_STARTED, payloadPidType pidType⟩, .call (.save draft),
        .dispatch ⟨.RESERVE_PID_FAILED, payloadErrors (getFieldD e "errors")⟩],
       .error e) := by
  simp [reservePID, swu_error h]

theorem discardPID_err {draft : JsValue} {svc : DraftsService} {e : JsValue} (pidType : String)
    (h : svc.save draft = .error e) :
    discardPID draft pidType svc =
      ([.dispatch ⟨.DISCARD_PID_STARTED, payloadPidType pidType⟩, .call (.save draft),
        .dispatch ⟨.DISCARD_PID_FAILED, payloadErrors (getFieldD e "errors")⟩],
       .error e) := by
  simp [discardPID, swu_error h]

theorem reservePID_ok {draft : JsValue} {svc : DraftsService} {resp : JsValue}
    {t1 : List TraceItem} (pidType : String) (pidResp : JsValue)
    (hswu : saveDraftWithUrlUpdate draft svc = (t1, .ok resp))
    (hpid : svc.reservePID (getFieldD (getFieldD resp "data") "links") pidType = .ok pidResp) :
    reservePID draft pidType svc =
      ((.dispatch ⟨.RESERVE_PID_STARTED, payloadPidType pidType⟩ :: t1) ++
         [.call (.reservePID (getFieldD (getFieldD resp "data") "links") pidType),
          .dispatch ⟨.RESERVE_PID_SUCCEEDED, payloadData (getFieldD pidResp "data")⟩],
       .ok ()) := by
  simp [reservePID, hswu, hpid]

theorem discardPID_ok {draft : JsValue} {svc : DraftsService} {resp : JsValue}
    {t1 : List TraceItem} (pidType : String) (pidResp : JsValue)
    (hswu : saveDraftWithUrlUpdate draft svc = (t1, .ok resp))
    (hpid : svc.discardPID (getFieldD (getFieldD resp "data") "links") pidType = .ok pidResp) :
    discardPID draft pidType svc =
      ((.dispatch ⟨.DISCARD_PID_STARTED, payloadPidType pidType⟩ :: t1) ++
         [.call (.discardPID (getFieldD (getFieldD resp "data") "links") pidType),
          .dispatch ⟨.DISCARD_PID_SUCCEEDED, payloadData (getFieldD pidResp "data")⟩],
       .ok ()) := by
  simp [discardPID, hswu, hpid]

theorem reservePID_pid_err {draft : JsValue} {svc : DraftsService} {resp e : JsValue}
    {t1 : List TraceItem} (pidType : String)
    (hswu : saveDraftWithUrlUpdate draft svc = (t1, .ok resp))
    (hpid : svc.reservePID (getFieldD (getFieldD resp "data") "links") pidType = .error e) :
    reservePID draft pidType svc =
      ((.dispatch ⟨.RESERVE_PID_STARTED, payloadPidType pidType⟩ :: t1) ++
         [.call (.reservePID (getFieldD (getFieldD resp "data") "links") pidType),
          .dispatch ⟨.RESERVE_PID_FAILED, payloadErrors (getFieldD e "errors")⟩],
       .error e) := by
  simp [reservePID, hswu, hpid]

theorem discardPID_pid_err {draft : JsValue} {svc : DraftsService} {resp e : JsValue}
    {t1 : List TraceItem} (pidType : String)
    (hswu : saveDraftWithUrlUpdate draft svc = (t1, .ok resp))
    (hpid : svc.discardPID (getFieldD (getFieldD resp "data") "links") pidType = .error e) :
    discardPID draft pidType svc =
      ((.dispatch ⟨.DISCARD_PID_STARTED, payloadPidType pidType⟩ :: t1) ++
         [.call (.discardPID (getFieldD (getFieldD resp "data") "links") pidType),
          .dispatch ⟨.DISCARD_PID_FAILED, payloadErrors (getFieldD e "errors")⟩],
       .error e) := by
  simp [discardPID, hswu, hpid]

theorem reservePID_narrow (draft : JsValue) (pidType : String) (svc : DraftsService) :
    countType (reservePID draft pidType svc).1 .DRAFT_HAS_VALIDATION_ERRORS = 0 ∧
    countIf (reservePID draft pidType svc).1 isDeleteReviewCall = 0 ∧
    countIf (reservePID draft pidType svc).1 isCreateOrUpdateReviewCall = 0 ∧
    countIf (reservePID draft pidType svc).1 isReadCall = 0 := by
  rcases hswu : saveDraftWithUrlUpdate draft svc with ⟨t1, r1⟩
  have ht1 : ∀ p, (∀ d, p (.call (.save d)) = false) → (∀ u, p (.replaceUrl u) = false) →
      countIf t1 p = 0 := by
    intro p h1 h2
    have h := countIf_swu_zero draft svc p h1 h2
    rw [hswu] at h
    exact h
  have hz1 := ht1 (isDispatchOfType .DRAFT_HAS_VALIDATION_ERRORS) (fun d => rfl) (fun u => rfl)
  have hz2 := ht1 isDeleteReviewCall (fun d => rfl) (fun u => rfl)
  have hz3 := ht1 isCreateOrUpdateReviewCall (fun d => rfl) (fun u => rfl)
  have hz4 := ht1 isReadCall (fun d => rfl) (fun u => rfl)
  cases r1 with
  | error e =>
    simp [reservePID, hswu, countType, isDispatchOfType, isDeleteReviewCall,
          isCreateOrUpdateReviewCall, isReadCall, hz1, hz2, hz3, hz4, countType]
  | ok resp =>
    cases hpid : svc.reservePID (getFieldD (getFieldD resp "data") "links") pidType with
    | error e =>
      simp [reservePID, hswu, hpid, countType, isDispatchOfType, isDeleteReviewCall,
            isCreateOrUpdateReviewCall, isReadCall, hz1, hz2, hz3, hz4]
    | ok pidResp =>
      simp [reservePID, hswu, hpid, countType, isDispatchOfType, isDeleteReviewCall,
            isCreateOrUpdateReviewCall, isReadCall, hz1, hz2, hz3, hz4]

theorem discardPID_narrow (draft : JsValue) (pidType : String) (svc : DraftsService) :
    countType (discardPID draft pidType svc).1 .DRAFT_HAS_VALIDATION_ERRORS = 0 ∧
    countIf (discardPID draft pidType svc).1 isDeleteReviewCall = 0 ∧
    countIf (discardPID draft pidType svc).1 isCreateOrUpdateReviewCall = 0 ∧
    countIf (discardPID draft pidType svc).1 isReadCall = 0 := by
  rcases hswu : saveDraftWithUrlUpdate draft svc with ⟨t1, r1⟩
  have ht1 : ∀ p, (∀ d, p (.call (.save d)) = false) → (∀ u, p (.replaceUrl u) = false) →
      countIf t1 p = 0 := by
    intro p h1 h2
    have h := countIf_swu_zero draft svc p h1 h2
    rw [hswu] at h
    exact h
  have hz1 := ht1 (isDispatchOfType .DRAFT_HAS_VALIDATION_ERRORS) (fun d => rfl) (fun u => rfl)
  have hz2 := ht1 isDeleteReviewCall (fun d => rfl) (fun u => rfl)
  have hz3 := ht1 isCreateOrUpdateReviewCall (fun d => rfl) (fun u => rfl)
  have hz4 := ht1 isReadCall (fun d => rfl) (fun u => rfl)
  cases r1 with
  | error e =>
    simp [discardPID, hswu, countType, isDispatchOfType, isDeleteReviewCall,
          isCreateOrUpdateReviewCall, isReadCall, hz1, hz2, hz3, hz4]
  | ok resp =>
    cases hpid : svc.discardPID (getFieldD (getFieldD resp "data") "links") pidType with
    | error e =>
      simp [discardPID, hswu, hpid, countType, isDispatchOfType, isDeleteReviewCall,
            isCreateOrUpdateReviewCall, isReadCall, hz1, hz2, hz3, hz4]
    | ok pidResp =>
      simp [discardPID, hswu, hpid, countType, isDispatchOfType, isDeleteReviewCall,
            isCreateOrUpdateReviewCall, isReadCall, hz1, hz2, hz3, hz4]

/-- C7: reservePID and discardPID persist through the narrow
saveDraftWithUrlUpdate routine only: they never dispatch
DRAFT_HAS_VALIDATION_ERRORS and never call deleteReview,
createOrUpdateReview or read; on success they dispatch exactly one
RESERVE_PID_SUCCEEDED (resp. DISCARD_PID_SUCCEEDED) carrying the PID
response's data; on any rejection, from the save step or the PID step, they
dispatch exactly one RESERVE_PID_FAILED (resp. DISCARD_PID_FAILED) carrying
the error's errors and re-throw the error. -/
theorem C7_pid_operations (draft : JsValue) (pidType : String) (svc : DraftsService) :
    (countType (reservePID draft pidType svc).1 .DRAFT_HAS_VALIDATION_ERRORS = 0 ∧
     countIf (reservePID draft pidType svc).1 isDeleteReviewCall = 0 ∧
     countIf (reservePID draft pidType svc).1 isCreateOrUpdateReviewCall = 0 ∧
     countIf (reservePID draft pidType svc).1 isReadCall = 0) ∧
    (countType (discardPID draft pidType svc).1 .DRAFT_HAS_VALIDATION_ERRORS = 0 ∧
     countIf (discardPID draft pidType svc).1 isDeleteReviewCall = 0 ∧
     countIf (discardPID draft pidType svc).1 isCreateOrUpdateReviewCall = 0 ∧
     countIf (discardPID draft pidType svc).1 isReadCall = 0) ∧
    (∀ resp pidResp, svc.save draft = .ok resp →
       svc.reservePID (getFieldD (getFieldD resp "data") "links") pidType = .ok pidResp →
       countType (reservePID draft pidType svc).1 .RESERVE_PID_SUCCEEDED = 1 ∧
       TraceItem.dispatch ⟨.RESERVE_PID_SUCCEEDED, payloadData (getFieldD pidResp "data")⟩
         ∈ (reservePID draft pidType svc).1 ∧
       (reservePID draft pidType svc).2 = .ok ()) ∧
    (∀ resp pidResp, svc.save draft = .ok resp →
       svc.discardPID (getFieldD (getFieldD resp "data") "links") pidType = .ok pidResp →
       countType (discardPID draft pidType svc).1 .DISCARD_PID_SUCCEEDED = 1 ∧
       TraceItem.dispatch ⟨.DISCARD_PID_SUCCEEDED, payloadData (getFieldD pidResp "data")⟩
         ∈ (discardPID draft pidType svc).1 ∧
       (discardPID draft pidType svc).2 = .ok ()) ∧
    (∀ e, svc.save draft = .error e →
       countType (reservePID draft pidType svc).1 .RESERVE_PID_FAILED = 1 ∧
       TraceItem.dispatch ⟨.RESERVE_PID_FAILED, payloadErrors (getFieldD e "errors")⟩
         ∈ (reservePID draft pidType svc).1 ∧
       (reservePID draft pidType svc).2 = .error e ∧
       countType (discardPID draft pidType svc).1 .DISCARD_PID_FAILED = 1 ∧
       TraceItem.dispatch ⟨.DISCARD_PID_FAILED, payloadErrors (getFieldD e "errors")⟩
         ∈ (discardPID draft pidType svc).1 ∧
       (discardPID draft pidType svc).2 = .error e) ∧
    (∀ resp e, svc.save draft = .ok resp →
       svc.reservePID (getFieldD (getFieldD resp "data") "links") pidType = .error e →
       countType (reservePID draft pidType svc).1 .RESERVE_PID_FAILED = 1 ∧
       TraceItem.dispatch ⟨.RESERVE_PID_FAILED, payloadErrors (getFieldD e "errors")⟩
         ∈ (reservePID draft pidType svc).1 ∧
       (reservePID draft pidType svc).2 = .error e) ∧
    (∀ resp e, svc.save draft = .ok resp →
       svc.discardPID (getFieldD (getFieldD resp "data") "links") pidType = .error e →
       countType (discardPID draft pidType svc).1 .DISCARD_PID_FAILED = 1 ∧
       TraceItem.dispatch ⟨.DISCARD_PID_FAILED, payloadErrors (getFieldD e "errors")⟩
         ∈ (discardPID draft pidType svc).1 ∧
       (discardPID draft pidType svc).2 = .error e) := by
  refine ⟨reservePID_narrow draft pidType svc, discardPID_narrow draft pidType svc,
          ?_, ?_, ?_, ?_, ?_⟩
  · intro resp pidResp hsave hpid
    cases hid : jsTruthy (getFieldD draft "id") with
    | true =>
      have hres := reservePID_ok pidType pidResp (swu_ok_hasId hsave hid) hpid
      simp [hres, countType, isDispatchOfType]
    | false =>
      have hres := reservePID_ok pidType pidResp (swu_ok_noId hsave hid) hpid
      simp [hres, countType, isDispatchOfType]
  · intro resp pidResp hsave hpid
    cases hid : jsTruthy (getFieldD draft "id") with
    | true =>
      have hres := discardPID_ok pidType pidResp (swu_ok_hasId hsave hid) hpid
      simp [hres, countType, isDispatchOfType]
    | false =>
      have hres := discardPID_ok pidType pidResp (swu_ok_noId hsave hid) hpid
      simp [hres, countType, isDispatchOfType]
  · intro e hsave
    have hres := reservePID_err pidType hsave
    have hres2 := discardPID_err pidType hsave
    simp [hres, hres2, countType, isDispatchOfType]
  · intro resp e hsave hpid
    cases hid : jsTruthy (getFieldD draft "id") with
    | true =>
      have hres := reservePID_pid_err pidType (swu_ok_hasId hsave hid) hpid
      simp [hres, countType, isDispatchOfType]
    | false =>
      have hres := reservePID_pid_err pidType (swu_ok_noId hsave hid) hpid
      simp [hres, countType, isDispatchOfType]
  · intro resp e hsave hpid
    cases hid : jsTruthy (getFieldD draft "id") with
    | true =>
      have hres := discardPID_pid_err pidType (swu_ok_hasId hsave hid) hpid
      simp [hres, countType, isDispatchOfType]
    | false =>
      have hres := discardPID_pid_err pidType (swu_ok_noId hsave hid) hpid
      simp [hres, countType, isDispatchOfType]

/-- C7 witness: the success and save-rejection behaviour of the PID
operations at a concrete backend. -/
theorem C7_pid_operations_witness :
    countType (reservePID wDraft "doi" wSvcOk).1 .DRAFT_HAS_VALIDATION_ERRORS = 0 ∧
    countType (reservePID wDraft "doi" wSvcOk).1 .RESERVE_PID_SUCCEEDED = 1 ∧
    countType (discardPID wDraft "doi" wSvcRej).1 .DISCARD_PID_FAILED = 1 :=
  ⟨(C7_pid_operations wDraft "doi" wSvcOk).1.1,
   ((C7_pid_operations wDraft "doi" wSvcOk).2.2.1 wResp wResp rfl rfl).1,
   ((C7_pid_operations wDraft "doi" wSvcRej).2.2.2.2.1 wErr rfl).2.2.2.1⟩

/-- C9: saveDraftWithUrlUpdate replaces the browser-visible address with
the response's `data.links.self_html` exactly when the draft had no
(truthy) `id` before the backend call; when the draft has an id the routine
performs only the backend save and leaves the address alone; in both
resolved cases the backend response is returned unchanged, and a rejection
performs no address replacement. -/
theorem C9_url_update (draft : JsValue) (svc : DraftsService) :
    (∀ e, svc.save draft = .error e →
       saveDraftWithUrlUpdate draft svc = ([.call (.save draft)], .error e)) ∧
    (∀ resp, svc.save draft = .ok resp →
       (saveDraftWithUrlUpdate draft svc).2 = .ok resp ∧
       (jsTruthy (getFieldD draft "id") = true →
          (saveDraftWithUrlUpdate draft svc).1 = [.call (.save draft)]) ∧
       (jsTruthy (getFieldD draft "id") = false →
          (saveDraftWithUrlUpdate draft svc).1 =
            [.call (.save draft),
             .replaceUrl (getFieldD (getFieldD (getFieldD resp "data") "links") "self_html")]) ∧
       countIf (saveDraftWithUrlUpdate draft svc).1 isReplaceUrl =
         (if jsTruthy (getFieldD draft "id") = true then 0 else 1)) := by
  constructor
  · intro e h
    exact swu_error h
  · intro resp h
    cases hid : jsTruthy (getFieldD draft "id") with
    | true =>
      have hswu := swu_ok_hasId h hid
      simp [hswu, isReplaceUrl]
    | false =>
      have hswu := swu_ok_noId h hid
      simp [hswu, isReplaceUrl]

/-- C9 witness: a create (no id) replaces the address once with the
canonical URL; a draft that already has an id does not. -/
theorem C9_url_update_witness :
    wSvcOk.save wDraft = .ok wResp ∧
    (saveDraftWithUrlUpdate wDraft wSvcOk).1 =
      [.call (.save wDraft), .replaceUrl (.str "/records/abc")] ∧
    countIf (saveDraftWithUrlUpdate (.obj [("id", .str "abc")]) wSvcOk).1 isReplaceUrl = 0 :=
  ⟨rfl,
   by
     have h := ((C9_url_update wDraft wSvcOk).2 wResp rfl).2.2.1 rfl
     simpa using h,
   by
     have h := ((C9_url_update (.obj [("id", .str "abc")]) wSvcOk).2 wResp rfl).2.2.2
     simpa using h⟩

theorem setDedup_mem (l : List String) (a : String) : a ∈ setDedup l ↔ a ∈ l := by
  induction l with
  | nil => simp [setDedup]
  | cons m rest ih =>
    by_cases hm : a = m
    · subst hm; simp [setDedup]
    · simp [setDedup, List.mem_cons, List.mem_filter, ih, hm]

theorem setDedup_nodup (l : List String) : (setDedup l).Nodup := by
  induction l with
  | nil => simp [setDedup]
  | cons m rest ih =>
    rw [setDedup, List.nodup_cons]
    constructor
    · intro hmem
      rcases List.mem_filter.mp hmem with ⟨_, hne⟩
      simp at hne
    · exact ih.filter _

theorem setDedup_sublist (l : List String) : (setDedup l).Sublist l := by
  induction l with
  | nil => simp [setDedup]
  | cons m rest ih =>
    rw [setDedup]
    exact ((List.filter_sublist _).trans ih).cons₂ m

/-- C6: renderErrorMessages deduplicates by exact string equality keeping
first occurrences in order (the unique list has no duplicates, holds
exactly the input's members, and is a sublist of the input); with exactly
one unique message it yields that message inline, otherwise the ordered
list of unique messages; in particular on a b a-duplicated input it yields
the two-element list and on a singleton input the bare inline string. -/
theorem C6_renderMessages :
    (∀ ms : List String, (setDedup ms).Nodup ∧ (∀ m, m ∈ setDedup ms ↔ m ∈ ms) ∧
       (setDedup ms).Sublist ms) ∧
    (∀ ms m, setDedup ms = [m] → renderErrorMessages ms = .inline m) ∧
    (∀ ms, (setDedup ms).length ≠ 1 → renderErrorMessages ms = .list (setDedup ms)) ∧
    renderErrorMessages ["a", "a", "b"] = .list ["a", "b"] ∧
    renderErrorMessages ["only"] = .inline "only" ∧
    setDedup ["b", "a", "b"] = ["b", "a"] := by
  refine ⟨fun ms => ⟨setDedup_nodup ms, fun m => setDedup_mem ms m, setDedup_sublist ms⟩,
          ?_, ?_, by decide, by decide, by decide⟩
  · intro ms m h
    cases ms with
    | nil => simp [setDedup] at h
    | cons a rest =>
      have ha : a = m := by
        rw [setDedup] at h
        exact (List.cons.injEq _ _ _ _ ▸ h).1
      subst ha
      simp [renderErrorMessages, h]
  · intro ms hne
    simp [renderErrorMessages, hne]

/-- C6 witness: the inline and list branches at concrete inputs through the
general statement. -/
theorem C6_renderMessages_witness :
    setDedup ["only"] = ["only"] ∧
    renderErrorMessages ["only"] = .inline "only" ∧
    (setDedup ["a", "a", "b"]).length ≠ 1 ∧
    renderErrorMessages ["a", "a", "b"] = .list (setDedup ["a", "a", "b"]) :=
  ⟨by decide, C6_renderMessages.2.1 ["only"] "only" (by decide),
   by decide, C6_renderMessages.2.2.1 ["a", "a", "b"] (by decide)⟩

theorem mem_upsert {p : String × JsValue} {acc : List (String × JsValue)} {k : String}
    {v : JsValue} (h : p ∈ upsert acc k v) : p ∈ acc ∨ p = (k, v) := by
  induction acc with
  | nil =>
    simp [upsert] at h
    exact Or.inr h
  | cons q rest ih =>
    simp only [upsert] at h
    by_cases hq : q.1 = k
    · rw [if_pos hq] at h
      rcases List.mem_cons.mp h with h1 | h1
      · exact Or.inr h1
      · exact Or.inl (List.mem_cons_of_mem _ h1)
    · rw [if_neg hq] at h
      rcases List.mem_cons.mp h with h1 | h1
      · exact Or.inl (h1 ▸ List.mem_cons_self _ _)
      · rcases ih h1 with h2 | h2
        · exact Or.inl (List.mem_cons_of_mem _ h2)
        · exact Or.inr h2

theorem mem_fromEntries_core (l : List (String × JsValue)) :
    ∀ (acc : List (String × JsValue)) (p : String × JsValue),
      p ∈ l.foldl (fun acc q => upsert acc q.1 q.2) acc → p ∈ acc ∨ p ∈ l := by
  induction l with
  | nil => intro acc p h; exact Or.inl h
  | cons q rest ih =>
    intro acc p h
    rw [List.foldl_cons] at h
    rcases ih (upsert acc q.1 q.2) p h with h1 | h1
    · rcases mem_upsert h1 with h2 | h2
      · exact Or.inl h2
      · right; simp [h2]
    · exact Or.inr (List.mem_cons_of_mem _ h1)

theorem mem_fromEntries {p : String × JsValue} {l : List (String × JsValue)}
    (h : p ∈ fromEntries l) : p ∈ l := by
  rcases mem_fromEntries_core l [] p h with h1 | h1
  · simp at h1
  · exact h1

/-- C4: toLabelledErrorMessages flattens only the metadata, files,
access.embargo and pids sections into dotted keys built from the section
name and the immediate child key; an absent section contributes no keys;
and a non-object `pids` value is kept whole under the single literal key
`pids`, so the document with the plain string pids entry maps to the single
label PIDS with that one message. -/
theorem C4_section_flattening :
    (∀ errors k v, (k, v) ∈ step0 errors →
       (∃ c, k = "metadata." ++ c) ∨ (∃ c, k = "files." ++ c) ∨
       (∃ c, k = "access.embargo." ++ c) ∨ (∃ c, k = "pids." ++ c) ∨ k = "pids") ∧
    (∀ errors, getField errors "metadata" = none → step0_metadata errors = []) ∧
    (∀ errors, getField errors "files" = none → step0_files errors = []) ∧
    (∀ errors, getField errors "access" = none → step0_access errors = []) ∧
    (∀ errors, getField errors "pids" = none → step0_pids errors = []) ∧
    (∀ errors v, getField errors "pids" = some v → jsIsObject v = false →
       jsTruthy v = true → step0_pids errors = [("pids", v)]) ∧
    toLabelledErrorMessages defaultLabels (.obj [("pids", .str "Invalid DOI")]) =
      [("PIDS", ["Invalid DOI"])] := by
  refine ⟨?_, ?_, ?_, ?_, ?_, ?_, by decide⟩
  · intro errors k v h
    have h' := mem_fromEntries h
    simp only [List.append_assoc, List.mem_append] at h'
    rcases h' with hm | hf | ha | hp
    · simp only [step0_metadata, step0Section, List.mem_map] at hm
      obtain ⟨q, _, heq⟩ := hm
      exact Or.inl ⟨q.1, ((Prod.mk.injEq _ _ _ _ ▸ heq).1).symm⟩
    · simp only [step0_files, step0Section, List.mem_map] at hf
      obtain ⟨q, _, heq⟩ := hf
      exact Or.inr (Or.inl ⟨q.1, ((Prod.mk.injEq _ _ _ _ ▸ heq).1).symm⟩)
    · simp only [step0_access, step0Section, List.mem_map] at ha
      obtain ⟨q, _, heq⟩ := ha
      exact Or.inr (Or.inr (Or.inl ⟨q.1, ((Prod.mk.injEq _ _ _ _ ▸ heq).1).symm⟩))
    · simp only [step0_pids] at hp
      split at hp
      · simp only [step0Section, List.mem_map] at hp
        obtain ⟨q, _, heq⟩ := hp
        exact Or.inr (Or.inr (Or.inr (Or.inl ⟨q.1, ((Prod.mk.injEq _ _ _ _ ▸ heq).1).symm⟩)))
      · rcases List.mem_singleton.mp hp with heq
        exact Or.inr (Or.inr (Or.inr (Or.inr (Prod.mk.injEq _ _ _ _ ▸ heq).1)))
  · intro errors h
    simp [step0_metadata, step0Section, getFieldD, h, jsOr, jsTruthy, jsEntries]
  · intro errors h
    simp [step0_files, step0Section, getFieldD, h, jsOr, jsTruthy, jsEntries]
  · intro errors h
    have h1 : getFieldD errors "access" = JsValue.null := by
      simp only [getFieldD, h, Option.getD_none]
    have h2 : getFieldD (getFieldD errors "access") "embargo" = JsValue.null := by
      rw [h1]; rfl
    simp only [step0_access, h2]
    rfl
  · intro errors h
    simp [step0_pids, step0Section, getFieldD, h, jsOr, jsTruthy, jsIsObject, jsEntries]
  · intro errors v h hobj htr
    simp [step0_pids, getFieldD, h, jsOr, htr, hobj]

/-- C4 witness: the pids special case and the section-absence behaviour at
the concrete single-entry document. -/
theorem C4_section_flattening_witness :
    getField (JsValue.obj [("pids", .str "Invalid DOI")]) "metadata" = none ∧
    step0_metadata (.obj [("pids", .str "Invalid DOI")]) = [] ∧
    getField (JsValue.obj [("pids", .str "Invalid DOI")]) "pids" = some (.str "Invalid DOI") ∧
    step0_pids (.obj [("pids", .str "Invalid DOI")]) = [("pids", .str "Invalid DOI")] :=
  ⟨rfl,
   C4_section_flattening.2.1 (.obj [("pids", .str "Invalid DOI")]) rfl,
   rfl,
   C4_section_flattening.2.2.2.2.2.1 (.obj [("pids", .str "Invalid DOI")])
     (.str "Invalid DOI") rfl rfl rfl⟩

/-- Observer for the labelled error map: the message list stored under a
label (an absent label holds no messages), mirroring JS property lookup on
the step 2 result object. -/
def lookupListD (out : List (String × List String)) (L : String) : List String :=
  match out.find? (fun p => decide (p.1 = L)) with
  | some p => p.2
  | none => []

theorem lookupListD_cons (p : String × List String) (rest : List (String × List String))
    (L : String) :
    lookupListD (p :: rest) L = if p.1 = L then p.2 else lookupListD rest L := by
  by_cases h : p.1 = L
  · rw [lookupListD, List.find?_cons_of_pos _ (by simp [h])]
    simp [h]
  · rw [lookupListD, List.find?_cons_of_neg _ (by simp [h])]
    simp [h, lookupListD]

theorem lookupListD_upsertConcat (acc : List (String × List String)) (lab : String)
    (msgs : List String) (L : String) :
    lookupListD (upsertConcat acc lab msgs) L =
      if L = lab then lookupListD acc L ++ msgs else lookupListD acc L := by
  induction acc with
  | nil =>
    by_cases h : L = lab
    · subst h
      simp [upsertConcat, lookupListD_cons, lookupListD]
    · have h' : ¬ lab = L := fun hh => h hh.symm
      simp [upsertConcat, lookupListD_cons, lookupListD, h, h']
  | cons q rest ih =>
    simp only [upsertConcat]
    by_cases hq : q.1 = lab
    · rw [if_pos hq]
      by_cases hL : L = lab
      · subst hL
        simp [lookupListD_cons, hq]
      · have hqL : ¬ q.1 = L := by rw [hq]; exact fun hh => hL hh.symm
        have hL' : ¬ lab = L := fun hh => hL hh.symm
        simp [lookupListD_cons, hq, hqL, hL, hL']
    · rw [if_neg hq]
      rw [lookupListD_cons, lookupListD_cons]
      by_cases hqL : q.1 = L
      · have hL : ¬ L = lab := fun hh => hq (hqL.trans hh)
        simp [hqL, hL]
      · simp [hqL, ih]

theorem lookupListD_group_core (labels : List (String × String))
    (st : List (String × List String)) :
    ∀ (acc : List (String × List String)) (L : String),
      lookupListD (st.foldl (fun acc p => upsertConcat acc (labelOf labels p.1) p.2) acc) L =
        lookupListD acc L ++
          ((st.filter (fun kv => decide (labelOf labels kv.1 = L))).map
             (fun kv => kv.2)).flatten := by
  induction st with
  | nil => intro acc L; simp
  | cons kv rest ih =>
    intro acc L
    rw [List.foldl_cons, ih, lookupListD_upsertConcat]
    by_cases h : L = labelOf labels kv.1
    · rw [if_pos h]
      rw [List.filter_cons_of_pos (by simp [h])]
      simp [List.append_assoc]
    · rw [if_neg h]
      have h' : ¬ labelOf labels kv.1 = L := fun hh => h hh.symm
      rw [List.filter_cons_of_neg (by simp [h'])]

theorem keys_upsertConcat (acc : List (String × List String)) (lab : String)
    (msgs : List String) :
    (upsertConcat acc lab msgs).map Prod.fst =
      if lab ∈ acc.map Prod.fst then acc.map Prod.fst
      else acc.map Prod.fst ++ [lab] := by
  induction acc with
  | nil => simp [upsertConcat]
  | cons q rest ih =>
    simp only [upsertConcat]
    by_cases hq : q.1 = lab
    · rw [if_pos hq]
      simp [hq]
    · rw [if_neg hq]
      have hq' : ¬ lab = q.1 := fun hh => hq hh.symm
      simp only [List.map_cons, ih]
      by_cases hm : lab ∈ rest.map Prod.fst
      · simp [hm, hq', List.mem_cons]
      · simp [hm, hq', List.mem_cons]

theorem nodup_keys_group_core (labels : List (String × String))
    (st : List (String × List String)) :
    ∀ (acc : List (String × List String)), (acc.map Prod.fst).Nodup →
      (((st.foldl (fun acc p => upsertConcat acc (labelOf labels p.1) p.2) acc)).map
         Prod.fst).Nodup := by
  induction st with
  | nil => intro acc h; exact h
  | cons kv rest ih =>
    intro acc h
    rw [List.foldl_cons]
    apply ih
    rw [keys_upsertConcat]
    by_cases hm : labelOf labels kv.1 ∈ acc.map Prod.fst
    · rw [if_pos hm]; exact h
    · rw [if_neg hm]
      simp [List.nodup_append, h, hm]

/-- C5: step 2 of toLabelledErrorMessages maps each dotted key to its label
with the literal fallback Unknown field for keys absent from the table, so
no error is dropped; keys sharing a label have their message lists
concatenated in key encounter order under that single label entry (the
output holds each label once, and the entry of a label is exactly the
concatenation of the message lists of the keys mapping to it, in order);
with a table sending both metadata.title and metadata.additional_titles to
Title the two message lists merge under the single Title entry. -/
theorem C5_label_grouping :
    (∀ labels st L,
       lookupListD (groupByLabel labels st) L =
         ((st.filter (fun kv => decide (labelOf labels kv.1 = L))).map
            (fun kv => kv.2)).flatten) ∧
    (∀ labels st, ((groupByLabel labels st).map Prod.fst).Nodup) ∧
    (∀ labels k, labels.find? (fun p => decide (p.1 = k)) = none →
       labelOf labels k = "Unknown field") ∧
    (∀ labels st kv m, kv ∈ st → m ∈ kv.2 →
       m ∈ lookupListD (groupByLabel labels st) (labelOf labels kv.1)) ∧
    toLabelledErrorMessages
        [("metadata.title", "Title"), ("metadata.additional_titles", "Title")]
        (.obj [("metadata", .obj [("title", .arr [.str "x"]),
                                  ("additional_titles", .arr [.str "y"])])]) =
      [("Title", ["x", "y"])] ∧
    toLabelledErrorMessages defaultLabels
        (.obj [("metadata", .obj [("weird", .str "m")])]) =
      [("Unknown field", ["m"])] := by
  have hmain : ∀ labels st L,
      lookupListD (groupByLabel labels st) L =
        ((st.filter (fun kv => decide (labelOf labels kv.1 = L))).map
           (fun kv => kv.2)).flatten := by
    intro labels st L
    have h := lookupListD_group_core labels st [] L
    simpa [groupByLabel, lookupListD] using h
  refine ⟨hmain, ?_, ?_, ?_, by decide, by decide⟩
  · intro labels st
    exact nodup_keys_group_core labels st [] (by simp)
  · intro labels k h
    simp [labelOf, h]
  · intro labels st kv m hkv hm
    rw [hmain]
    exact List.mem_flatten.mpr
      ⟨kv.2, List.mem_map.mpr ⟨kv, List.mem_filter.mpr ⟨hkv, by simp⟩, rfl⟩, hm⟩

/-- C5 witness: the lookup characterization, merging and fallback at
concrete inputs through the general statement. -/
theorem C5_label_grouping_witness :
    lookupListD (groupByLabel [("a", "LabelA")] [("a", ["m1"]), ("b", ["m2"])]) "LabelA" =
      ["m1"] ∧
    labelOf ([] : List (String × String)) "zzz" = "Unknown field" ∧
    ("m2" : String) ∈
      lookupListD (groupByLabel [("a", "LabelA")] [("a", ["m1"]), ("b", ["m2"])])
        (labelOf [("a", "LabelA")] "b") :=
  ⟨(C5_label_grouping.1 [("a", "LabelA")] [("a", ["m1"]), ("b", ["m2"])] "LabelA").trans
     (by decide),
   C5_label_grouping.2.2.1 [] "zzz" rfl,
   C5_label_grouping.2.2.2.1 [("a", "LabelA")] [("a", ["m1"]), ("b", ["m2"])]
     ("b", ["m2"]) "m2" (by decide) (by decide)⟩

/-- C8: the Feedback Presenter's render is a total function on the modelled
store states (guards in the source make every branch defined); it renders
nothing when there is no active action state (no action state at all, or
one without an ACTIONS feedback entry), and for every action state with an
ACTIONS entry it renders that entry's (always non-empty) message together
with the labelled error list built from the store errors. -/
theorem C8_feedback_render (labels : List (String × String)) (errors : JsValue) :
    render labels none errors = .nothing ∧
    (∀ st, ACTIONS.find? (fun a => decide (a.1 = st)) = none →
       render labels (some st) errors = .nothing) ∧
    (∀ st entry, ACTIONS.find? (fun a => decide (a.1 = st)) = some entry →
       entry.2.2 ≠ "" ∧
       render labels (some st) errors =
         .message entry.2.1 entry.2.2
           ((toLabelledErrorMessages labels (jsOr errors (.obj []))).map
              (fun lm => (lm.1, renderErrorMessages lm.2)))) := by
  refine ⟨rfl, ?_, ?_⟩
  · intro st h
    simp [render, h]
  · intro st entry h
    have hmem : entry ∈ ACTIONS := List.mem_of_find?_eq_some h
    have htab : ∀ a ∈ ACTIONS, a.2.2 ≠ "" := by decide
    have hne := htab entry hmem
    refine ⟨hne, ?_⟩
    simp [render, h, hne]

/-- C8 witness: a state outside the ACTIONS table renders nothing, a state
in the table renders its message. -/
theorem C8_feedback_render_witness :
    render defaultLabels (some .DRAFT_SAVE_STARTED) .null = .nothing ∧
    render defaultLabels (some .DRAFT_SAVE_SUCCEEDED) .null =
      .message "positive" "Record successfully saved." [] :=
  ⟨(C8_feedback_render defaultLabels .null).2.1 .DRAFT_SAVE_STARTED rfl,
   (((C8_feedback_render defaultLabels .null).2.2 .DRAFT_SAVE_SUCCEEDED
       (.DRAFT_SAVE_SUCCEEDED, "positive", "Record successfully saved.") rfl).2).trans
     (by rfl)⟩
